import Mathlib

/-!
# calc_go: the HTTP and console front ends of `internal/application`

A shallow embedding of `internal/application/application.go`:
`ConfigFromEnv`, `New`, `CalcHandler` and `Application.Run`.

The evaluator `calculation.Calc`, the decoder `json.Unmarshal` and the
formatting verb `%v` live outside this package; the handler and the console
loop are embedded over a record of these collaborators, and every call made to
`Calc` is recorded so that statements about whether the evaluator is invoked
can be made.
-/

namespace CalcGo

/-! ## Data model -/

/-- Modelled from the spec: the error values of package `calculation`, whose
source is not part of `internal/application`. The ten sentinels are the ones
that the `switch err` of `CalcHandler` names; `Other` stands for any error
value that is none of them (it reaches the `default` arm). -/
inductive CalcError where
  | ErrInvalidExpression
  | ErrDivisionByZero
  | ErrMismatchedParentheses
  | ErrInvalidNumber
  | ErrUnexpectedToken
  | ErrNotEnoughValues
  | ErrInvalidOperator
  | ErrOperatorAtEnd
  | ErrMultipleDecimalPoints
  | ErrEmptyInput
  | Other (text : String)
  deriving DecidableEq, Repr

/-- The collaborators of the package, for an evaluator whose values have type `V`:
`Unmarshal body` is the outcome of `json.Unmarshal(body, &request)` (the decoded
`request.Expression`, or the decoding error), `Calc` is `calculation.Calc`,
`Sprintv` is `fmt.Sprintf("%v", result)` and `errText` is `err.Error()`. -/
structure Collaborators (V : Type) where
  Unmarshal : String → Except String String
  Calc : String → Except CalcError V
  Sprintv : V → String
  errText : CalcError → String

/-- The type `Config` of the package. -/
structure Config where
  Addr : String
  deriving DecidableEq, Repr

/-- The type `Application` of the package. -/
structure Application where
  config : Config
  deriving DecidableEq, Repr

/-- The function `os.Getenv`: the value of the variable, the empty string when it is unset. -/
def Getenv (env : String → Option String) (key : String) : String :=
  (env key).getD ""

/-- The function `ConfigFromEnv`. -/
def ConfigFromEnv (env : String → Option String) : Config :=
  let config : Config := { Addr := Getenv env "PORT" }
  if config.Addr = "" then { config with Addr := "8080" } else config

/-- The function `New`. -/
def New (env : String → Option String) : Application :=
  { config := ConfigFromEnv env }

/-! ## The response writer -/

/-- The part of `*http.Request` that the handler reads: the method, the path
and the outcome of `io.ReadAll(r.Body)`. -/
structure Request where
  Method : String
  Path : String
  Body : Except String String

/-- A recording `http.ResponseWriter`: header map, status code, body written so far. -/
structure ResponseWriter where
  Header : List (String × String)
  Code : Nat
  wroteHeader : Bool
  Body : String
  deriving DecidableEq, Repr

/-- A fresh recorder, as `httptest.NewRecorder()` builds it. -/
def NewRecorder : ResponseWriter :=
  { Header := [], Code := 200, wroteHeader := false, Body := "" }

def MethodPost : String := "POST"
def StatusOK : Nat := 200
def StatusBadRequest : Nat := 400
def StatusNotFound : Nat := 404
def StatusMethodNotAllowed : Nat := 405
def StatusUnprocessableEntity : Nat := 422
def StatusInternalServerError : Nat := 500

/-- The call `w.Header().Del(key)`. -/
def headerDel (key : String) (w : ResponseWriter) : ResponseWriter :=
  { w with Header := w.Header.filter (fun kv => kv.1 ≠ key) }

/-- The call `w.Header().Set(key, value)`. -/
def headerSet (key value : String) (w : ResponseWriter) : ResponseWriter :=
  { w with Header := w.Header.filter (fun kv => kv.1 ≠ key) ++ [(key, value)] }

/-- The call `w.Header().Get(key)`. -/
def headerGet (key : String) (w : ResponseWriter) : Option String :=
  (w.Header.find? (fun kv => kv.1 = key)).map Prod.snd

/-- The call `w.WriteHeader(code)`: only the first call fixes the status. -/
def WriteHeader (code : Nat) (w : ResponseWriter) : ResponseWriter :=
  if w.wroteHeader then w else { w with Code := code, wroteHeader := true }

/-- The call `w.Write(b)`: an implicit `WriteHeader(200)` when none was made yet. -/
def Write (b : String) (w : ResponseWriter) : ResponseWriter :=
  let w1 := WriteHeader StatusOK w
  { w1 with Body := w1.Body ++ b }

/-- The function `http.Error`: plain-text headers, the status, then the
message printed with `fmt.Fprintln`, that is, followed by a newline. -/
def httpError (w : ResponseWriter) (error : String) (code : Nat) : ResponseWriter :=
  let w1 := headerDel "Content-Length" w
  let w2 := headerSet "Content-Type" "text/plain; charset=utf-8" w1
  let w3 := headerSet "X-Content-Type-Options" "nosniff" w2
  let w4 := WriteHeader code w3
  Write (error ++ "\n") w4

/-! ## JSON encoding of the response -/

/-- A lower-case hexadecimal digit. -/
def hexDigit (n : Nat) : Char :=
  if n < 10 then Char.ofNat (48 + n) else Char.ofNat (87 + n)

/-- The table `htmlSafeSet` of `encoding/json`: the ASCII characters written
unescaped, all from the space on except the quote, `&`, `<`, `>` and the backslash. -/
def htmlSafe (n : Nat) : Bool :=
  decide (32 ≤ n) && decide (n < 128) && !(n == 34 || n == 38 || n == 60 || n == 62 || n == 92)

/-- One step of `appendString` of `encoding/json` (with HTML escaping, as
`json.Marshal` uses it): the encoding of one character of the string. -/
def appendRune (c : Char) : List Char :=
  let n := c.toNat
  if n < 128 then
    if htmlSafe n then [c]
    else if n = 92 ∨ n = 34 then [Char.ofNat 92, c]
    else if n = 8 then [Char.ofNat 92, 'b']
    else if n = 12 then [Char.ofNat 92, 'f']
    else if n = 10 then [Char.ofNat 92, 'n']
    else if n = 13 then [Char.ofNat 92, 'r']
    else if n = 9 then [Char.ofNat 92, 't']
    else [Char.ofNat 92, 'u', '0', '0', hexDigit (n / 16), hexDigit (n % 16)]
  else if n = 8232 ∨ n = 8233 then
    [Char.ofNat 92, 'u', '2', '0', '2', hexDigit (n % 16)]
  else [c]

/-- The function `appendString` of `encoding/json`: a quoted JSON string. -/
def appendString (s : List Char) : List Char :=
  Char.ofNat 34 :: (s.flatMap appendRune ++ [Char.ofNat 34])

/-- The call `json.Marshal(response)` for the response struct, whose only
field is `Result string` with key `result`. Encoding a string field cannot fail. -/
def jsonMarshal (Result : String) : Except String String :=
  .ok ("\x7b\"result\":" ++ String.mk (appendString Result.data) ++ "\x7d")

/-! ## The HTTP handler -/

/-- What serving one request did: the response writer afterwards, the
arguments of the calls made to `Calc`, in order, and the lines logged. -/
structure Served where
  w : ResponseWriter
  calcCalls : List String
  log : List String
  deriving DecidableEq, Repr

/-- The `switch err` of `CalcHandler`: the message and the status code. -/
def errorReply (err : CalcError) : String × Nat :=
  let statusCode := StatusUnprocessableEntity
  match err with
  | .ErrInvalidExpression => ("Error calculation", statusCode)
  | .ErrDivisionByZero => ("Division by zero", statusCode)
  | .ErrMismatchedParentheses => ("Mismatched parentheses", statusCode)
  | .ErrInvalidNumber => ("Invalid number", statusCode)
  | .ErrUnexpectedToken => ("Unexpected token", statusCode)
  | .ErrNotEnoughValues => ("Not enough values", statusCode)
  | .ErrInvalidOperator => ("Invalid operator", statusCode)
  | .ErrOperatorAtEnd => ("Operator at end", statusCode)
  | .ErrMultipleDecimalPoints => ("Multiple decimal points", statusCode)
  | .ErrEmptyInput => ("Empty input", statusCode)
  | .Other _ => ("Error calculation", StatusUnprocessableEntity)

/-- The function `CalcHandler`. -/
def CalcHandler {V : Type} (K : Collaborators V) (w : ResponseWriter) (r : Request) : Served :=
  if r.Method ≠ MethodPost then
    { w := httpError w "\x7b\"error\":\"Wrong Method\"\x7d" StatusMethodNotAllowed,
      calcCalls := [], log := [] }
  else
    match r.Body with
    | .error _ =>
      { w := httpError w "\x7b\"error\":\"Invalid Body\"\x7d" StatusBadRequest,
        calcCalls := [], log := [] }
    | .ok body =>
      match K.Unmarshal body with
      | .error _ =>
        { w := httpError w "\x7b\"error\":\"Invalid Body\"\x7d" StatusBadRequest,
          calcCalls := [], log := [] }
      | .ok Expression =>
        if Expression = "" then
          { w := httpError w "\x7b\"error\":\"Invalid Body\"\x7d" StatusBadRequest,
            calcCalls := [], log := [] }
        else
          match K.Calc Expression with
          | .error err =>
            let reply := errorReply err
            { w := httpError w ("\x7b\"error\":\"" ++ reply.1 ++ "\"\x7d") reply.2,
              calcCalls := [Expression], log := [] }
          | .ok result =>
            match jsonMarshal (K.Sprintv result) with
            | .error e =>
              { w := httpError w "\x7b\"error\":\"Unknown error occurred\"\x7d"
                  StatusInternalServerError,
                calcCalls := [Expression],
                log := ["Error while marshaling response: " ++ e] }
            | .ok responseJson =>
              let w1 := headerSet "Content-Type" "application/json" w
              let w2 := WriteHeader StatusOK w1
              { w := Write responseJson w2, calcCalls := [Expression], log := [] }

/-- The handler that `RunServer` registers for the pattern `/`, which serves
every path that has no handler of its own. -/
def NotFoundHandler (w : ResponseWriter) (_r : Request) : ResponseWriter :=
  httpError w "\x7b\"error\":\"Not Found\"\x7d" StatusNotFound

/-! ## The console loop -/

/-- The function `unicode.IsSpace`. -/
def isSpace (c : Char) : Bool :=
  let n := c.toNat
  n == 9 || n == 10 || n == 11 || n == 12 || n == 13 || n == 32 || n == 133 || n == 160
    || n == 5760 || (decide (8192 ≤ n) && decide (n ≤ 8202)) || n == 8232 || n == 8233
    || n == 8239 || n == 8287 || n == 12288

/-- The function `strings.TrimSpace`. -/
def TrimSpace (s : String) : String :=
  String.mk ((s.data.dropWhile isSpace).reverse.dropWhile isSpace).reverse

/-- One outcome of `reader.ReadString`: the text read and the error, if any. -/
structure ReadResult where
  text : String
  err : Option String
  deriving DecidableEq, Repr

/-- The size of the buffer of a reader built by `bufio.NewReader`. -/
def defaultBufSize : Nat := 4096

/-- Standard input, as what is still to come from it: the successive pieces
of data that a `Read` with room for all of it would deliver, in order. An
empty piece is a read of no data, which `os.File.Read` reports as end of file;
when the list is used up the input is closed and every read reports end of
file. Characters stand for bytes (exact for single-byte characters). -/
abbrev Stdin := List (List Char)

/-- The part of `ReadString` that runs over one piece of data, for a reader
whose buffer has room for `room` more characters. The reader calls `Read` with
all the room it has (the whole buffer again once it is full) and looks for the
newline only in what it holds after the call. So, when the newline is found,
the characters delivered after it by the same call stay in the reader's buffer:
the result is the text up to and including the newline with `some` of the
characters of the piece not yet delivered by any call. Without a newline it is
the whole piece, `none`, and the room left. -/
def scanChunk : List Char → Nat → List Char × Option (List Char) × Nat
  | [], room => ([], none, room)
  | c :: cs, room =>
    let room1 := if room = 0 then defaultBufSize else room
    if c = Char.ofNat 10 then ([c], some (cs.drop (room1 - 1)), 0)
    else
      let r := scanChunk cs (room1 - 1)
      (c :: r.1, r.2.1, r.2.2)

/-- The call `reader.ReadString('\n')` on a reader whose buffer, with no
newline in it, has room for `room` more characters: the text up to and
including the first newline, or up to the end of file, and standard input as it
is left for whoever reads it next. What the reader still holds in its buffer
is not part of the result: it is gone with the reader. -/
def readStringRoom : Stdin → Nat → ReadResult × Stdin
  | [], _ => ({ text := "", err := some "EOF" }, [])
  | [] :: rest, _ => ({ text := "", err := some "EOF" }, rest)
  | (c :: cs) :: rest, room =>
    match scanChunk (c :: cs) room with
    | (t, some left, _) =>
      ({ text := String.mk t, err := none }, if left = [] then rest else left :: rest)
    | (t, none, room1) =>
      let r := readStringRoom rest room1
      ({ text := String.mk t ++ r.1.text, err := r.1.err }, r.2)

/-- The two statements `reader := bufio.NewReader(os.Stdin)` and
`reader.ReadString('\n')` of the loop of `Run`: a read through a new reader,
whose buffer is empty. -/
def ReadString (stdin : Stdin) : ReadResult × Stdin :=
  readStringRoom stdin defaultBufSize

/-- How far `Run` got in the turns of its loop that it was given: it
returned (with its error value, `none` for `nil`), or it is still in its loop. -/
inductive RunResult where
  | returned (err : Option String)
  | looping
  deriving DecidableEq, Repr

/-- The trace of `Run`: the lines logged (without the logger's time stamp
and final newline) and the arguments of the calls made to `Calc`, in order. -/
structure RunTrace where
  log : List String
  calcCalls : List String
  deriving DecidableEq, Repr

/-- The method `Application.Run`, for at most `turns` turns of its loop,
which has no bound of its own. Each turn builds a new reader on standard input. -/
def Run {V : Type} (K : Collaborators V) : Nat → Stdin → RunTrace → RunResult × RunTrace
  | 0, _, t => (.looping, t)
  | turns + 1, stdin, t =>
    let t1 := { t with log := t.log ++ ["input expression"] }
    let rd := ReadString stdin
    let t2 := if rd.1.err.isSome then
        { t1 with log := t1.log ++ ["failed to read expression from console"] }
      else t1
    let text := TrimSpace rd.1.text
    if text = "exit" then
      (.returned none, { t2 with log := t2.log ++ ["application was successfully closed"] })
    else
      match K.Calc text with
      | .error err =>
        Run K turns rd.2
          { log := t2.log ++ [text ++ " calculation failed with error: " ++ K.errText err],
            calcCalls := t2.calcCalls ++ [text] }
      | .ok result =>
        Run K turns rd.2
          { log := t2.log ++ [text ++ " = " ++ K.Sprintv result],
            calcCalls := t2.calcCalls ++ [text] }

/-! ## Reading a response back

The reading side of the JSON string encoding, used to say what a response
body holds: an object with the one field `result` whose value is a string. -/

/-- The value of a hexadecimal digit. -/
def hexValue (c : Char) : Option Nat :=
  let n := c.toNat
  if 48 ≤ n ∧ n ≤ 57 then some (n - 48)
  else if 97 ≤ n ∧ n ≤ 102 then some (n - 87)
  else if 65 ≤ n ∧ n ≤ 70 then some (n - 55)
  else none

/-- The character that a one-letter JSON escape stands for. -/
def unescape (e : Char) : Option Char :=
  let n := e.toNat
  if n = 34 ∨ n = 92 ∨ n = 47 then some e
  else if e = 'b' then some (Char.ofNat 8)
  else if e = 'f' then some (Char.ofNat 12)
  else if e = 'n' then some (Char.ofNat 10)
  else if e = 'r' then some (Char.ofNat 13)
  else if e = 't' then some (Char.ofNat 9)
  else none

/-- Reads a JSON string from just after its opening quote: the text it holds
and what follows its closing quote. Raw control characters and unknown
escapes are rejected; a `\u` escape is read as one character. -/
def readString : List Char → Option (List Char × List Char)
  | [] => none
  | c :: cs =>
    if c.toNat = 34 then some ([], cs)
    else if c.toNat = 92 then
      match cs with
      | [] => none
      | e :: cs1 =>
        if e = 'u' then
          match cs1 with
          | h3 :: h2 :: h1 :: h0 :: cs2 =>
            match hexValue h3, hexValue h2, hexValue h1, hexValue h0 with
            | some a, some b, some c1, some d =>
              (readString cs2).map
                (fun p => (Char.ofNat (4096 * a + 256 * b + 16 * c1 + d) :: p.1, p.2))
            | _, _, _, _ => none
          | _ => none
        else
          match unescape e with
          | some x => (readString cs1).map (fun p => (x :: p.1, p.2))
          | none => none
    else if c.toNat < 32 then none
    else (readString cs).map (fun p => (c :: p.1, p.2))

/-- Reads a body as a JSON object with the single field `result` whose value
is a JSON string, and gives the text of that string; `none` for any other body
(in particular when the value is a JSON number). -/
def resultField (body : String) : Option String :=
  let opening := "\x7b\"result\":\"".data
  if body.data.take opening.length = opening then
    match readString (body.data.drop opening.length) with
    | some (s, rest) => if rest = ['\x7d'] then some (String.mk s) else none
    | none => none
  else none

/-! ## Example collaborators -/

/-- A decoder standing in for `json.Unmarshal` in the examples. It is exact
on the compact bodies that `json.Marshal` makes of a one-entry map with key
`expression` and an escape-free value, which are the bodies the package's test
sends, and reports an error on every other body. -/
def exampleUnmarshal (body : String) : Except String String :=
  let opening := "\x7b\"expression\":\"".data
  let inner := (body.data.drop opening.length).dropLast.dropLast
  if body.data.take opening.length = opening
      ∧ body.data.drop (opening.length + inner.length) = [Char.ofNat 34, '\x7d']
      ∧ inner.all (fun c => htmlSafe c.toNat) then
    .ok (String.mk inner)
  else .error "json: cannot unmarshal"

/-- An evaluator standing in for `calculation.Calc` in the examples, with
integer values: a table of the expressions that the examples use. -/
def exampleCalc (expression : String) : Except CalcError Int :=
  if expression = "2 + 2" then .ok 4
  else if expression = "2 / 0" then .error .ErrDivisionByZero
  else if expression = "2*(2+2\x7b)" then .error .ErrInvalidExpression
  else if TrimSpace expression = "" then .error .ErrEmptyInput
  else .error (.Other "unsupported")

/-- The text of an error, standing in for `err.Error()` in the examples. -/
def exampleErrText : CalcError → String
  | .ErrDivisionByZero => "division by zero"
  | .ErrEmptyInput => "empty input"
  | .Other t => t
  | _ => "invalid expression"

/-- The example collaborators. -/
def exampleCollaborators : Collaborators Int :=
  { Unmarshal := exampleUnmarshal, Calc := exampleCalc,
    Sprintv := fun v => toString v, errText := exampleErrText }

/-- A request as `httptest.NewRequest` builds it from a body held in memory. -/
def NewRequest (method path body : String) : Request :=
  { Method := method, Path := path, Body := .ok body }


/-! ## Lemmas on the response writer -/

theorem httpError_NewRecorder (error : String) (code : Nat) :
    httpError NewRecorder error code =
      { Header := [("Content-Type", "text/plain; charset=utf-8"),
                   ("X-Content-Type-Options", "nosniff")],
        Code := code, wroteHeader := true, Body := error ++ "\n" } := by
  simp [httpError, Write, WriteHeader, headerSet, headerDel, NewRecorder]

/-! ## The branches of the handler -/

theorem CalcHandler_of_method {V : Type} (K : Collaborators V) (w : ResponseWriter)
    (r : Request) (hm : r.Method ≠ MethodPost) :
    CalcHandler K w r =
      { w := httpError w "\x7b\"error\":\"Wrong Method\"\x7d" StatusMethodNotAllowed,
        calcCalls := [], log := [] } := by
  simp [CalcHandler, hm]

theorem CalcHandler_of_unread {V : Type} (K : Collaborators V) (w : ResponseWriter)
    (r : Request) (e : String) (hm : r.Method = MethodPost) (hb : r.Body = .error e) :
    CalcHandler K w r =
      { w := httpError w "\x7b\"error\":\"Invalid Body\"\x7d" StatusBadRequest,
        calcCalls := [], log := [] } := by
  simp [CalcHandler, hm, hb]

theorem CalcHandler_of_undecoded {V : Type} (K : Collaborators V) (w : ResponseWriter)
    (r : Request) (body e : String) (hm : r.Method = MethodPost) (hb : r.Body = .ok body)
    (hu : K.Unmarshal body = .error e) :
    CalcHandler K w r =
      { w := httpError w "\x7b\"error\":\"Invalid Body\"\x7d" StatusBadRequest,
        calcCalls := [], log := [] } := by
  simp [CalcHandler, hm, hb, hu]

theorem CalcHandler_of_empty {V : Type} (K : Collaborators V) (w : ResponseWriter)
    (r : Request) (body : String) (hm : r.Method = MethodPost) (hb : r.Body = .ok body)
    (hu : K.Unmarshal body = .ok "") :
    CalcHandler K w r =
      { w := httpError w "\x7b\"error\":\"Invalid Body\"\x7d" StatusBadRequest,
        calcCalls := [], log := [] } := by
  simp [CalcHandler, hm, hb, hu]

theorem CalcHandler_of_error {V : Type} (K : Collaborators V) (w : ResponseWriter)
    (r : Request) (body Expression : String) (err : CalcError)
    (hm : r.Method = MethodPost) (hb : r.Body = .ok body)
    (hu : K.Unmarshal body = .ok Expression) (hne : Expression ≠ "")
    (hc : K.Calc Expression = .error err) :
    CalcHandler K w r =
      { w := httpError w ("\x7b\"error\":\"" ++ (errorReply err).1 ++ "\"\x7d")
          (errorReply err).2,
        calcCalls := [Expression], log := [] } := by
  simp [CalcHandler, hm, hb, hu, hne, hc]

theorem CalcHandler_of_value {V : Type} (K : Collaborators V) (w : ResponseWriter)
    (r : Request) (body Expression : String) (result : V)
    (hm : r.Method = MethodPost) (hb : r.Body = .ok body)
    (hu : K.Unmarshal body = .ok Expression) (hne : Expression ≠ "")
    (hc : K.Calc Expression = .ok result) :
    CalcHandler K w r =
      { w := Write ("\x7b\"result\":" ++ String.mk (appendString (K.Sprintv result).data)
            ++ "\x7d")
          (WriteHeader StatusOK (headerSet "Content-Type" "application/json" w)),
        calcCalls := [Expression], log := [] } := by
  simp [CalcHandler, hm, hb, hu, hne, hc, jsonMarshal]

/-! ## Reading back what `appendString` wrote -/

theorem readString_plain (c : Char) (cs : List Char) (h34 : c.toNat ≠ 34) (h92 : c.toNat ≠ 92)
    (h32 : ¬ c.toNat < 32) :
    readString (c :: cs) = (readString cs).map (fun p => (c :: p.1, p.2)) := by
  rw [readString.eq_def]
  simp [h34, h92, h32]

theorem readString_quote (cs : List Char) :
    readString (Char.ofNat 34 :: cs) = some ([], cs) := by
  rw [readString.eq_def]
  simp

theorem readString_escape (e x : Char) (cs : List Char) (hu : e ≠ 'u')
    (hx : unescape e = some x) :
    readString (Char.ofNat 92 :: e :: cs) = (readString cs).map (fun p => (x :: p.1, p.2)) := by
  rw [readString.eq_def]
  simp [hu, hx]

theorem readString_hex (h3 h2 h1 h0 : Char) (a b c1 d : Nat) (cs : List Char)
    (e3 : hexValue h3 = some a) (e2 : hexValue h2 = some b) (e1 : hexValue h1 = some c1)
    (e0 : hexValue h0 = some d) :
    readString (Char.ofNat 92 :: 'u' :: h3 :: h2 :: h1 :: h0 :: cs)
      = (readString cs).map
          (fun p => (Char.ofNat (4096 * a + 256 * b + 16 * c1 + d) :: p.1, p.2)) := by
  rw [readString.eq_def]
  simp [e3, e2, e1, e0]

theorem hexValue_hexDigit (k : Nat) (hk : k < 16) : hexValue (hexDigit k) = some k := by
  interval_cases k <;> rfl

theorem char_eq_of_toNat (c : Char) (n : Nat) (h : c.toNat = n) : c = Char.ofNat n := by
  rw [← h, Char.ofNat_toNat]

theorem readString_appendRune (c : Char) (tail : List Char) :
    readString (appendRune c ++ tail) = (readString tail).map (fun p => (c :: p.1, p.2)) := by
  unfold appendRune
  simp only
  split_ifs with h1 h2 h3 h4 h5 h6 h7 h8 h9
  · -- an ASCII character written as it is
    simp [htmlSafe] at h2
    exact readString_plain c tail (by omega) (by omega) (by omega)
  · -- the quote and the backslash
    have hc : c = Char.ofNat 92 ∨ c = Char.ofNat 34 :=
      h3.imp (char_eq_of_toNat c 92) (char_eq_of_toNat c 34)
    rcases hc with rfl | rfl
    · exact readString_escape _ _ tail (by decide) (by decide)
    · exact readString_escape _ _ tail (by decide) (by decide)
  · rw [char_eq_of_toNat c 8 h4]
    exact readString_escape _ _ tail (by decide) (by decide)
  · rw [char_eq_of_toNat c 12 h5]
    exact readString_escape _ _ tail (by decide) (by decide)
  · rw [char_eq_of_toNat c 10 h6]
    exact readString_escape _ _ tail (by decide) (by decide)
  · rw [char_eq_of_toNat c 13 h7]
    exact readString_escape _ _ tail (by decide) (by decide)
  · rw [char_eq_of_toNat c 9 h8]
    exact readString_escape _ _ tail (by decide) (by decide)
  · -- the other ASCII characters, written as four hexadecimal digits
    have e := readString_hex '0' '0' (hexDigit (c.toNat / 16)) (hexDigit (c.toNat % 16))
      0 0 (c.toNat / 16) (c.toNat % 16) tail (by decide) (by decide)
      (hexValue_hexDigit _ (by omega)) (hexValue_hexDigit _ (by omega))
    have hn : 4096 * 0 + 256 * 0 + 16 * (c.toNat / 16) + c.toNat % 16 = c.toNat := by omega
    rw [hn, Char.ofNat_toNat] at e
    exact e
  · -- the line and paragraph separators
    have e := readString_hex '2' '0' '2' (hexDigit (c.toNat % 16))
      2 0 2 (c.toNat % 16) tail (by decide) (by decide) (by decide)
      (hexValue_hexDigit _ (by omega))
    have hn : 4096 * 2 + 256 * 0 + 16 * 2 + c.toNat % 16 = c.toNat := by omega
    rw [hn, Char.ofNat_toNat] at e
    exact e
  · exact readString_plain c tail (by omega) (by omega) (by omega)

theorem readString_flatMap (s rest : List Char) :
    readString (s.flatMap appendRune ++ Char.ofNat 34 :: rest) = some (s, rest) := by
  induction s with
  | nil => simpa using readString_quote rest
  | cons c cs ih =>
    rw [List.flatMap_cons, List.append_assoc, readString_appendRune, ih]
    rfl

theorem resultField_marshal (s : String) :
    resultField ("\x7b\"result\":" ++ String.mk (appendString s.data) ++ "\x7d") = some s := by
  have h : ("\x7b\"result\":" ++ String.mk (appendString s.data) ++ "\x7d").data
      = "\x7b\"result\":\"".data ++ (s.data.flatMap appendRune ++ Char.ofNat 34 :: ['\x7d']) := by
    simp [appendString, String.data_append]
  unfold resultField
  simp only [h]
  rw [List.take_left, List.drop_left, readString_flatMap]
  simp

theorem flatMap_appendRune_safe (s : List Char) (hs : ∀ c ∈ s, htmlSafe c.toNat = true) :
    s.flatMap appendRune = s := by
  induction s with
  | nil => rfl
  | cons c cs ih =>
    have hc : htmlSafe c.toNat = true := hs c (List.mem_cons_self c cs)
    have h128 : c.toNat < 128 := by
      simp [htmlSafe] at hc; omega
    rw [List.flatMap_cons, ih (fun x hx => hs x (List.mem_cons_of_mem c hx))]
    simp [appendRune, h128, hc]

theorem marshal_safe (s : String) (hs : ∀ c ∈ s.data, htmlSafe c.toNat = true) :
    "\x7b\"result\":" ++ String.mk (appendString s.data) ++ "\x7d"
      = "\x7b\"result\":\"" ++ s ++ "\"\x7d" := by
  apply String.ext
  simp [appendString, String.data_append, flatMap_appendRune_safe s.data hs]

theorem marshal_ne_error (s msg : String) :
    "\x7b\"result\":" ++ String.mk (appendString s.data) ++ "\x7d"
      ≠ "\x7b\"error\":" ++ msg := by
  intro h
  have h2 := congrArg String.data h
  simp [appendString, String.data_append] at h2

theorem success_NewRecorder (b : String) :
    Write b (WriteHeader StatusOK (headerSet "Content-Type" "application/json" NewRecorder)) =
      { Header := [("Content-Type", "application/json")],
        Code := 200, wroteHeader := true, Body := b } := by
  simp [Write, WriteHeader, headerSet, NewRecorder, StatusOK]

theorem except_cases {ε α : Type} (x : Except ε α) :
    (∃ e, x = .error e) ∨ (∃ a, x = .ok a) := by
  cases x with
  | error e => exact Or.inl ⟨e, rfl⟩
  | ok a => exact Or.inr ⟨a, rfl⟩

/-- The three ways a request is served: rejected before evaluation, evaluated
with an error, evaluated with a value. -/
theorem CalcHandler_cases {V : Type} (K : Collaborators V) (r : Request) :
    (¬ (r.Method = "POST"
          ∧ ∃ body e, r.Body = .ok body ∧ K.Unmarshal body = .ok e ∧ e ≠ "")
      ∧ (CalcHandler K NewRecorder r =
            { w := httpError NewRecorder "\x7b\"error\":\"Wrong Method\"\x7d" 405,
              calcCalls := [], log := [] }
          ∨ CalcHandler K NewRecorder r =
            { w := httpError NewRecorder "\x7b\"error\":\"Invalid Body\"\x7d" 400,
              calcCalls := [], log := [] }))
    ∨ (∃ body e err, r.Method = "POST" ∧ r.Body = .ok body ∧ K.Unmarshal body = .ok e
        ∧ e ≠ "" ∧ K.Calc e = .error err
        ∧ CalcHandler K NewRecorder r =
            { w := httpError NewRecorder ("\x7b\"error\":\"" ++ (errorReply err).1 ++ "\"\x7d")
                (errorReply err).2,
              calcCalls := [e], log := [] })
    ∨ (∃ body e v, r.Method = "POST" ∧ r.Body = .ok body ∧ K.Unmarshal body = .ok e
        ∧ e ≠ "" ∧ K.Calc e = .ok v
        ∧ CalcHandler K NewRecorder r =
            { w := Write ("\x7b\"result\":" ++ String.mk (appendString (K.Sprintv v).data)
                  ++ "\x7d")
                (WriteHeader StatusOK (headerSet "Content-Type" "application/json" NewRecorder)),
              calcCalls := [e], log := [] }) := by
  by_cases hm : r.Method = "POST"
  · rcases except_cases r.Body with ⟨e0, hb⟩ | ⟨body, hb⟩
    · refine Or.inl ⟨?_, Or.inr (CalcHandler_of_unread K _ r e0 hm hb)⟩
      rintro ⟨-, body, e, hb2, -, -⟩
      rw [hb] at hb2
      cases hb2
    · rcases except_cases (K.Unmarshal body) with ⟨e0, hu⟩ | ⟨e, hu⟩
      · refine Or.inl ⟨?_, Or.inr (CalcHandler_of_undecoded K _ r body e0 hm hb hu)⟩
        rintro ⟨-, body2, e, hb2, hu2, -⟩
        rw [hb] at hb2
        cases hb2
        rw [hu] at hu2
        cases hu2
      · by_cases he : e = ""
        · subst he
          refine Or.inl ⟨?_, Or.inr (CalcHandler_of_empty K _ r body hm hb hu)⟩
          rintro ⟨-, body2, e, hb2, hu2, hne⟩
          rw [hb] at hb2
          cases hb2
          rw [hu] at hu2
          cases hu2
          exact hne rfl
        · rcases except_cases (K.Calc e) with ⟨err, hc⟩ | ⟨v, hc⟩
          · exact Or.inr (Or.inl ⟨body, e, err, hm, hb, hu, he, hc,
              CalcHandler_of_error K _ r body e err hm hb hu he hc⟩)
          · exact Or.inr (Or.inr ⟨body, e, v, hm, hb, hu, he, hc,
              CalcHandler_of_value K _ r body e v hm hb hu he hc⟩)
  · exact Or.inl ⟨fun h => hm h.1, Or.inl (CalcHandler_of_method K _ r hm)⟩

theorem errorReply_snd (err : CalcError) : (errorReply err).2 = 422 := by
  cases err <;> rfl

theorem errorReply_ne_spaced (err : CalcError) :
    "\x7b\"error\":\"" ++ (errorReply err).1 ++ "\"\x7d" ++ "\n"
      ≠ "\x7b\"error\": \"Error calculation\"\x7d" ++ "\n" := by
  cases err
  case Other t =>
    show "\x7b\"error\":\"" ++ "Error calculation" ++ "\"\x7d" ++ "\n"
      ≠ "\x7b\"error\": \"Error calculation\"\x7d" ++ "\n"
    decide
  all_goals decide

theorem errorReply_empty_input (err : CalcError)
    (h : "\x7b\"error\":\"" ++ (errorReply err).1 ++ "\"\x7d" ++ "\n"
      = "\x7b\"error\":\"Empty input\"\x7d\n") :
    err = .ErrEmptyInput := by
  cases err
  case ErrEmptyInput => rfl
  case Other t =>
    exact absurd (show "\x7b\"error\":\"" ++ "Error calculation" ++ "\"\x7d" ++ "\n"
      = "\x7b\"error\":\"Empty input\"\x7d\n" from h) (by decide)
  all_goals exact absurd h (by decide)

/-! ## One turn of the console loop -/

theorem Run_turn {V : Type} (K : Collaborators V) (turns : Nat) (stdin : Stdin) (t : RunTrace)
    (h : TrimSpace (ReadString stdin).1.text ≠ "exit") :
    ∃ t1 : RunTrace, t1.calcCalls = t.calcCalls ++ [TrimSpace (ReadString stdin).1.text]
      ∧ Run K (turns + 1) stdin t = Run K turns (ReadString stdin).2 t1 := by
  rw [Run]
  simp only [h, if_false]
  rcases except_cases (K.Calc (TrimSpace (ReadString stdin).1.text)) with ⟨err, hc⟩ | ⟨v, hc⟩
  · rw [hc]
    refine ⟨_, ?_, rfl⟩
    cases (ReadString stdin).1.err <;> rfl
  · rw [hc]
    refine ⟨_, ?_, rfl⟩
    cases (ReadString stdin).1.err <;> rfl

theorem Run_exit {V : Type} (K : Collaborators V) (turns : Nat) (stdin : Stdin) (t : RunTrace)
    (h : TrimSpace (ReadString stdin).1.text = "exit") :
    ∃ t1 : RunTrace, t1.calcCalls = t.calcCalls
      ∧ Run K (turns + 1) stdin t = (.returned none, t1) := by
  rw [Run]
  simp only [h, if_true]
  refine ⟨_, ?_, rfl⟩
  cases (ReadString stdin).1.err <;> rfl

/-- On a closed standard input `Run` stays in its loop, calling `Calc` on
the empty string in every turn. -/
theorem Run_closed {V : Type} (K : Collaborators V) (turns : Nat) (t : RunTrace) :
    (Run K turns [] t).1 = .looping
    ∧ (Run K turns [] t).2.calcCalls = t.calcCalls ++ List.replicate turns "" := by
  induction turns generalizing t with
  | zero => exact ⟨rfl, by simp [Run]⟩
  | succ n ih =>
    obtain ⟨t1, h1, h2⟩ := Run_turn K n [] t (by decide)
    have hr : (ReadString []).2 = [] := rfl
    have ht : TrimSpace (ReadString []).1.text = "" := by decide
    rw [h2, hr]
    refine ⟨(ih t1).1, ?_⟩
    rw [(ih t1).2, h1, ht, List.append_assoc]
    rfl

/-! ## Configuration -/

/-- C10: `ConfigFromEnv` gives `Addr` the value of `PORT` when that value is
not empty and `"8080"` when `PORT` is unset or empty, so `Addr` is never the
empty string; `New` builds its `Application` with exactly this `Config`. -/
theorem C10_config_from_env (env : String → Option String) :
    (∀ v, env "PORT" = some v → v ≠ "" → (ConfigFromEnv env).Addr = v)
    ∧ (env "PORT" = none → (ConfigFromEnv env).Addr = "8080")
    ∧ (env "PORT" = some "" → (ConfigFromEnv env).Addr = "8080")
    ∧ (ConfigFromEnv env).Addr ≠ ""
    ∧ (New env).config = ConfigFromEnv env := by
  refine ⟨?_, ?_, ?_, ?_, rfl⟩
  · intro v hv hne
    simp [ConfigFromEnv, Getenv, hv, hne]
  · intro h
    simp [ConfigFromEnv, Getenv, h]
  · intro h
    simp [ConfigFromEnv, Getenv, h]
  · unfold ConfigFromEnv
    by_cases h : Getenv env "PORT" = ""
    · simp [h]
    · simp [h]

theorem C10_config_from_env_witness :
    (ConfigFromEnv (fun key => if key = "PORT" then some "9090" else none)).Addr = "9090"
    ∧ (ConfigFromEnv (fun _ => none)).Addr = "8080"
    ∧ (ConfigFromEnv (fun key => if key = "PORT" then some "" else none)).Addr = "8080" :=
  ⟨(C10_config_from_env (fun key => if key = "PORT" then some "9090" else none)).1
      "9090" rfl (by decide),
    (C10_config_from_env (fun _ => none)).2.1 rfl,
    (C10_config_from_env (fun key => if key = "PORT" then some "" else none)).2.2.1 rfl⟩

/-! ## The handler: rejected requests -/

/-- C2: a request whose method is not POST, whatever its body and path, is
answered with status 405 and the body `{"error":"Wrong Method"}` followed by a
newline, and `Calc` is not called. -/
theorem C2_wrong_method {V : Type} (K : Collaborators V) (r : Request)
    (hm : r.Method ≠ "POST") :
    (CalcHandler K NewRecorder r).w.Code = 405
    ∧ (CalcHandler K NewRecorder r).w.Body = "\x7b\"error\":\"Wrong Method\"\x7d\n"
    ∧ (CalcHandler K NewRecorder r).calcCalls = [] := by
  rw [CalcHandler_of_method K NewRecorder r hm, httpError_NewRecorder]
  exact ⟨rfl, by decide, rfl⟩

theorem C2_wrong_method_witness :
    (NewRequest "GET" "/api/v1/calculate" "").Method ≠ "POST"
    ∧ (CalcHandler exampleCollaborators NewRecorder
        (NewRequest "GET" "/api/v1/calculate" "")).w.Code = 405
    ∧ (CalcHandler exampleCollaborators NewRecorder
        (NewRequest "GET" "/api/v1/calculate" "")).w.Body
        = "\x7b\"error\":\"Wrong Method\"\x7d\n"
    ∧ (CalcHandler exampleCollaborators NewRecorder
        (NewRequest "GET" "/api/v1/calculate" "")).calcCalls = [] :=
  ⟨by decide, C2_wrong_method exampleCollaborators _ (by decide)⟩

/-- C3: a POST request whose body cannot be read, or does not decode, or
decodes to an empty (in particular a missing) expression, is answered with
status 400 and the body `{"error":"Invalid Body"}` followed by a newline, and
`Calc` is not called. -/
theorem C3_invalid_body {V : Type} (K : Collaborators V) (r : Request)
    (hm : r.Method = "POST")
    (hbad : (∃ e, r.Body = .error e)
      ∨ (∃ body e, r.Body = .ok body ∧ K.Unmarshal body = .error e)
      ∨ (∃ body, r.Body = .ok body ∧ K.Unmarshal body = .ok "")) :
    (CalcHandler K NewRecorder r).w.Code = 400
    ∧ (CalcHandler K NewRecorder r).w.Body = "\x7b\"error\":\"Invalid Body\"\x7d\n"
    ∧ (CalcHandler K NewRecorder r).calcCalls = [] := by
  have key : CalcHandler K NewRecorder r =
      { w := httpError NewRecorder "\x7b\"error\":\"Invalid Body\"\x7d" StatusBadRequest,
        calcCalls := [], log := [] } := by
    rcases hbad with ⟨e, hb⟩ | ⟨body, e, hb, hu⟩ | ⟨body, hb, hu⟩
    · exact CalcHandler_of_unread K _ r e hm hb
    · exact CalcHandler_of_undecoded K _ r body e hm hb hu
    · exact CalcHandler_of_empty K _ r body hm hb hu
  rw [key, httpError_NewRecorder]
  exact ⟨rfl, by decide, rfl⟩

theorem C3_invalid_body_witness :
    (NewRequest "POST" "/api/v1/calculate" "\"invalid body\"").Method = "POST"
    ∧ exampleCollaborators.Unmarshal "\"invalid body\"" = .error "json: cannot unmarshal"
    ∧ (CalcHandler exampleCollaborators NewRecorder
        (NewRequest "POST" "/api/v1/calculate" "\"invalid body\"")).w.Code = 400
    ∧ (CalcHandler exampleCollaborators NewRecorder
        (NewRequest "POST" "/api/v1/calculate" "\"invalid body\"")).w.Body
        = "\x7b\"error\":\"Invalid Body\"\x7d\n"
    ∧ (CalcHandler exampleCollaborators NewRecorder
        (NewRequest "POST" "/api/v1/calculate" "\"invalid body\"")).calcCalls = [] :=
  ⟨rfl, rfl, C3_invalid_body exampleCollaborators _ rfl
    (Or.inr (Or.inl ⟨"\"invalid body\"", "json: cannot unmarshal", rfl, rfl⟩))⟩

/-! ## The handler: evaluator errors -/

/-- C1: whenever `Calc` returns an error, the handler answers with status 422
and the body `{"error":"<message>"}` followed by a newline, the message being
fixed by the error alone: one message for each of the ten named errors, and
`Error calculation` for every other error. -/
theorem C1_calc_error_reply {V : Type} (K : Collaborators V) (r : Request)
    (body Expression : String) (err : CalcError)
    (hm : r.Method = "POST") (hb : r.Body = .ok body)
    (hu : K.Unmarshal body = .ok Expression) (hne : Expression ≠ "")
    (hc : K.Calc Expression = .error err) :
    (CalcHandler K NewRecorder r).w.Code = 422
    ∧ (err = .ErrInvalidExpression → (CalcHandler K NewRecorder r).w.Body
        = "\x7b\"error\":\"Error calculation\"\x7d\n")
    ∧ (err = .ErrDivisionByZero → (CalcHandler K NewRecorder r).w.Body
        = "\x7b\"error\":\"Division by zero\"\x7d\n")
    ∧ (err = .ErrMismatchedParentheses → (CalcHandler K NewRecorder r).w.Body
        = "\x7b\"error\":\"Mismatched parentheses\"\x7d\n")
    ∧ (err = .ErrInvalidNumber → (CalcHandler K NewRecorder r).w.Body
        = "\x7b\"error\":\"Invalid number\"\x7d\n")
    ∧ (err = .ErrUnexpectedToken → (CalcHandler K NewRecorder r).w.Body
        = "\x7b\"error\":\"Unexpected token\"\x7d\n")
    ∧ (err = .ErrNotEnoughValues → (CalcHandler K NewRecorder r).w.Body
        = "\x7b\"error\":\"Not enough values\"\x7d\n")
    ∧ (err = .ErrInvalidOperator → (CalcHandler K NewRecorder r).w.Body
        = "\x7b\"error\":\"Invalid operator\"\x7d\n")
    ∧ (err = .ErrOperatorAtEnd → (CalcHandler K NewRecorder r).w.Body
        = "\x7b\"error\":\"Operator at end\"\x7d\n")
    ∧ (err = .ErrMultipleDecimalPoints → (CalcHandler K NewRecorder r).w.Body
        = "\x7b\"error\":\"Multiple decimal points\"\x7d\n")
    ∧ (err = .ErrEmptyInput → (CalcHandler K NewRecorder r).w.Body
        = "\x7b\"error\":\"Empty input\"\x7d\n")
    ∧ (∀ t, err = .Other t → (CalcHandler K NewRecorder r).w.Body
        = "\x7b\"error\":\"Error calculation\"\x7d\n") := by
  rw [CalcHandler_of_error K NewRecorder r body Expression err hm hb hu hne hc,
    httpError_NewRecorder]
  refine ⟨?_, ?_, ?_, ?_, ?_, ?_, ?_, ?_, ?_, ?_, ?_, ?_⟩
  · cases err <;> rfl
  case refine_12 =>
    intro t h
    subst h
    rfl
  all_goals
    intro h
    subst h
    rfl

theorem C1_calc_error_reply_witness :
    (NewRequest "POST" "/api/v1/calculate" "\x7b\"expression\":\"2 / 0\"\x7d").Method = "POST"
    ∧ exampleCollaborators.Unmarshal "\x7b\"expression\":\"2 / 0\"\x7d" = .ok "2 / 0"
    ∧ exampleCollaborators.Calc "2 / 0" = .error .ErrDivisionByZero
    ∧ (CalcHandler exampleCollaborators NewRecorder
        (NewRequest "POST" "/api/v1/calculate" "\x7b\"expression\":\"2 / 0\"\x7d")).w.Code = 422
    ∧ (CalcHandler exampleCollaborators NewRecorder
        (NewRequest "POST" "/api/v1/calculate" "\x7b\"expression\":\"2 / 0\"\x7d")).w.Body
        = "\x7b\"error\":\"Division by zero\"\x7d\n" :=
  have h := C1_calc_error_reply exampleCollaborators
    (NewRequest "POST" "/api/v1/calculate" "\x7b\"expression\":\"2 / 0\"\x7d")
    "\x7b\"expression\":\"2 / 0\"\x7d" "2 / 0" .ErrDivisionByZero rfl rfl rfl (by decide) rfl
  ⟨rfl, rfl, rfl, h.1, h.2.2.1 rfl⟩

/-! ## The handler: successful evaluation -/

/-- C4: a POST request with a decodable body and a non-empty expression on
which `Calc` succeeds with value `v` is answered with status 200, content type
`application/json` and a body that reads as the JSON object with the single
field `result` whose value is a JSON string holding the `%v` text of `v`; when
that text needs no escaping the body is that text between `{"result":"` and `"}`. -/
theorem C4_success_reply {V : Type} (K : Collaborators V) (r : Request)
    (body Expression : String) (v : V)
    (hm : r.Method = "POST") (hb : r.Body = .ok body)
    (hu : K.Unmarshal body = .ok Expression) (hne : Expression ≠ "")
    (hc : K.Calc Expression = .ok v) :
    (CalcHandler K NewRecorder r).w.Code = 200
    ∧ headerGet "Content-Type" (CalcHandler K NewRecorder r).w = some "application/json"
    ∧ resultField (CalcHandler K NewRecorder r).w.Body = some (K.Sprintv v)
    ∧ ((∀ c ∈ (K.Sprintv v).data, htmlSafe c.toNat = true) →
        (CalcHandler K NewRecorder r).w.Body = "\x7b\"result\":\"" ++ K.Sprintv v ++ "\"\x7d") := by
  rw [CalcHandler_of_value K NewRecorder r body Expression v hm hb hu hne hc,
    success_NewRecorder]
  refine ⟨rfl, rfl, resultField_marshal _, ?_⟩
  intro hs
  exact marshal_safe _ hs

theorem C4_success_reply_witness :
    (NewRequest "POST" "/api/v1/calculate" "\x7b\"expression\":\"2 + 2\"\x7d").Method = "POST"
    ∧ exampleCollaborators.Unmarshal "\x7b\"expression\":\"2 + 2\"\x7d" = .ok "2 + 2"
    ∧ exampleCollaborators.Calc "2 + 2" = .ok 4
    ∧ (CalcHandler exampleCollaborators NewRecorder
        (NewRequest "POST" "/api/v1/calculate" "\x7b\"expression\":\"2 + 2\"\x7d")).w.Code = 200
    ∧ resultField (CalcHandler exampleCollaborators NewRecorder
        (NewRequest "POST" "/api/v1/calculate" "\x7b\"expression\":\"2 + 2\"\x7d")).w.Body
        = some "4" :=
  have h := C4_success_reply exampleCollaborators
    (NewRequest "POST" "/api/v1/calculate" "\x7b\"expression\":\"2 + 2\"\x7d")
    "\x7b\"expression\":\"2 + 2\"\x7d" "2 + 2" 4 rfl rfl rfl (by decide) rfl
  ⟨rfl, rfl, rfl, h.1, h.2.2.1⟩

/-- C5: on the request of the test, expression `2 + 2` evaluated to a value
printed as `4`, the body that the handler writes is the 14 characters
`{"result":"4"}` and nothing more: it is not followed by a newline, so it is not
the body that the test expects. -/
theorem C5_success_body_has_no_newline {V : Type} (K : Collaborators V) (r : Request)
    (body : String) (v : V)
    (hm : r.Method = "POST") (hb : r.Body = .ok body)
    (hu : K.Unmarshal body = .ok "2 + 2") (hc : K.Calc "2 + 2" = .ok v)
    (hv : K.Sprintv v = "4") :
    (CalcHandler K NewRecorder r).w.Code = 200
    ∧ (CalcHandler K NewRecorder r).w.Body = "\x7b\"result\":\"4\"\x7d"
    ∧ (CalcHandler K NewRecorder r).w.Body.length = 14
    ∧ (CalcHandler K NewRecorder r).w.Body ≠ "\x7b\"result\":\"4\"\x7d" ++ "\n" := by
  rw [CalcHandler_of_value K NewRecorder r body "2 + 2" v hm hb hu (by decide) hc,
    success_NewRecorder, hv]
  exact ⟨rfl, by decide, by decide, by decide⟩

theorem C5_success_body_has_no_newline_witness :
    (NewRequest "POST" "/api/v1/calculate" "\x7b\"expression\":\"2 + 2\"\x7d").Method = "POST"
    ∧ exampleCollaborators.Unmarshal "\x7b\"expression\":\"2 + 2\"\x7d" = .ok "2 + 2"
    ∧ exampleCollaborators.Calc "2 + 2" = .ok 4
    ∧ exampleCollaborators.Sprintv 4 = "4"
    ∧ (CalcHandler exampleCollaborators NewRecorder
        (NewRequest "POST" "/api/v1/calculate" "\x7b\"expression\":\"2 + 2\"\x7d")).w.Body
        ≠ "\x7b\"result\":\"4\"\x7d" ++ "\n" :=
  ⟨rfl, rfl, rfl, rfl,
    (C5_success_body_has_no_newline exampleCollaborators
      (NewRequest "POST" "/api/v1/calculate" "\x7b\"expression\":\"2 + 2\"\x7d")
      "\x7b\"expression\":\"2 + 2\"\x7d" 4 rfl rfl rfl rfl rfl).2.2.2⟩

/-- C6: on the request of the test, expression `2*(2+2{)`, whatever error
`Calc` reports the handler answers with status 422 and a body that has no space
after the colon; when the error is the invalid-expression error the body is
`{"error":"Error calculation"}` followed by a newline. It is never the body
that the test expects, which has a space after the colon. -/
theorem C6_error_body_has_no_space {V : Type} (K : Collaborators V) (r : Request)
    (body : String) (err : CalcError)
    (hm : r.Method = "POST") (hb : r.Body = .ok body)
    (hu : K.Unmarshal body = .ok "2*(2+2\x7b)")
    (hc : K.Calc "2*(2+2\x7b)" = .error err) :
    (CalcHandler K NewRecorder r).w.Code = 422
    ∧ (err = .ErrInvalidExpression →
        (CalcHandler K NewRecorder r).w.Body = "\x7b\"error\":\"Error calculation\"\x7d\n")
    ∧ (CalcHandler K NewRecorder r).w.Body
        ≠ "\x7b\"error\": \"Error calculation\"\x7d" ++ "\n" := by
  rw [CalcHandler_of_error K NewRecorder r body "2*(2+2\x7b)" err hm hb hu
    (by decide) hc, httpError_NewRecorder]
  refine ⟨errorReply_snd err, ?_, errorReply_ne_spaced err⟩
  intro h
  subst h
  rfl

theorem C6_error_body_has_no_space_witness :
    (NewRequest "POST" "/api/v1/calculate" "\x7b\"expression\":\"2*(2+2\x7b)\"\x7d").Method
        = "POST"
    ∧ exampleCollaborators.Unmarshal "\x7b\"expression\":\"2*(2+2\x7b)\"\x7d"
        = .ok "2*(2+2\x7b)"
    ∧ exampleCollaborators.Calc "2*(2+2\x7b)" = .error .ErrInvalidExpression
    ∧ (CalcHandler exampleCollaborators NewRecorder
        (NewRequest "POST" "/api/v1/calculate"
          "\x7b\"expression\":\"2*(2+2\x7b)\"\x7d")).w.Body
        = "\x7b\"error\":\"Error calculation\"\x7d\n"
    ∧ (CalcHandler exampleCollaborators NewRecorder
        (NewRequest "POST" "/api/v1/calculate"
          "\x7b\"expression\":\"2*(2+2\x7b)\"\x7d")).w.Body
        ≠ "\x7b\"error\": \"Error calculation\"\x7d" ++ "\n" :=
  have h := C6_error_body_has_no_space exampleCollaborators
    (NewRequest "POST" "/api/v1/calculate" "\x7b\"expression\":\"2*(2+2\x7b)\"\x7d")
    "\x7b\"expression\":\"2*(2+2\x7b)\"\x7d" .ErrInvalidExpression rfl rfl rfl rfl
  ⟨rfl, rfl, rfl, h.2.1 rfl, h.2.2⟩

/-- C7: the handler does not read the path. A POST request with a valid body
on which `Calc` succeeds is answered with status 200 on a path other than
`/api/v1/calculate`, exactly as on that path: the status is not 404. The status
404 is what the catch-all handler of `RunServer` answers. -/
theorem C7_wrong_path_is_served {V : Type} (K : Collaborators V) (r : Request)
    (body Expression : String) (v : V)
    (hpath : r.Path ≠ "/api/v1/calculate")
    (hm : r.Method = "POST") (hb : r.Body = .ok body)
    (hu : K.Unmarshal body = .ok Expression) (hne : Expression ≠ "")
    (hc : K.Calc Expression = .ok v) :
    (CalcHandler K NewRecorder r).w.Code = 200
    ∧ (CalcHandler K NewRecorder r).w.Code ≠ 404
    ∧ CalcHandler K NewRecorder r
        = CalcHandler K NewRecorder { r with Path := "/api/v1/calculate" }
    ∧ (NotFoundHandler NewRecorder r).Code = 404
    ∧ (NotFoundHandler NewRecorder r).Body = "\x7b\"error\":\"Not Found\"\x7d\n" := by
  have h1 := CalcHandler_of_value K NewRecorder r body Expression v hm hb hu hne hc
  have h2 := CalcHandler_of_value K NewRecorder { r with Path := "/api/v1/calculate" }
    body Expression v hm hb hu hne hc
  have _ := hpath
  rw [h2, h1, success_NewRecorder, NotFoundHandler, httpError_NewRecorder]
  exact ⟨rfl, by show (200 : Nat) ≠ 404; decide, rfl, rfl, by decide⟩

theorem C7_wrong_path_is_served_witness :
    (NewRequest "POST" "/wrong/path" "\x7b\"expression\":\"2 + 2\"\x7d").Path
        ≠ "/api/v1/calculate"
    ∧ (NewRequest "POST" "/wrong/path" "\x7b\"expression\":\"2 + 2\"\x7d").Method = "POST"
    ∧ exampleCollaborators.Unmarshal "\x7b\"expression\":\"2 + 2\"\x7d" = .ok "2 + 2"
    ∧ exampleCollaborators.Calc "2 + 2" = .ok 4
    ∧ (CalcHandler exampleCollaborators NewRecorder
        (NewRequest "POST" "/wrong/path" "\x7b\"expression\":\"2 + 2\"\x7d")).w.Code = 200 :=
  ⟨by decide, rfl, rfl, rfl,
    (C7_wrong_path_is_served exampleCollaborators
      (NewRequest "POST" "/wrong/path" "\x7b\"expression\":\"2 + 2\"\x7d")
      "\x7b\"expression\":\"2 + 2\"\x7d" "2 + 2" 4 (by decide) rfl rfl rfl (by decide) rfl).1⟩

/-! ## When the evaluator is called -/

/-- C9: the handler calls `Calc` exactly when the method is POST, the body
decodes and the decoded expression is not empty, and then it calls it once, on
the decoded expression as it is; so `Calc` is never called on the empty string,
and the body `{"error":"Empty input"}` is only written with status 422, never
400, for a non-empty expression on which `Calc` reports the empty-input error. -/
theorem C9_calc_called_iff {V : Type} (K : Collaborators V) (r : Request) :
    ((CalcHandler K NewRecorder r).calcCalls ≠ [] ↔
        (r.Method = "POST"
          ∧ ∃ body e, r.Body = .ok body ∧ K.Unmarshal body = .ok e ∧ e ≠ ""))
    ∧ (∀ body e, r.Method = "POST" → r.Body = .ok body → K.Unmarshal body = .ok e → e ≠ "" →
        (CalcHandler K NewRecorder r).calcCalls = [e])
    ∧ "" ∉ (CalcHandler K NewRecorder r).calcCalls
    ∧ ((CalcHandler K NewRecorder r).w.Body = "\x7b\"error\":\"Empty input\"\x7d\n" →
        (CalcHandler K NewRecorder r).w.Code = 422
        ∧ (CalcHandler K NewRecorder r).w.Code ≠ 400
        ∧ ∃ body e, r.Body = .ok body ∧ K.Unmarshal body = .ok e ∧ e ≠ ""
            ∧ K.Calc e = .error .ErrEmptyInput) := by
  rcases CalcHandler_cases K r with ⟨hno, hrej⟩ | ⟨body, e, err, hm, hb, hu, he, hc, heq⟩
      | ⟨body, e, v, hm, hb, hu, he, hc, heq⟩
  · have hcalls : (CalcHandler K NewRecorder r).calcCalls = [] := by
      rcases hrej with h | h <;> rw [h]
    have hbody : (CalcHandler K NewRecorder r).w.Body ≠ "\x7b\"error\":\"Empty input\"\x7d\n" := by
      rcases hrej with h | h <;> rw [h, httpError_NewRecorder] <;> decide
    refine ⟨?_, ?_, ?_, ?_⟩
    · rw [hcalls]
      exact ⟨fun h => absurd rfl h, fun h => absurd h hno⟩
    · intro body e hm hb hu he
      exact absurd ⟨hm, body, e, hb, hu, he⟩ hno
    · rw [hcalls]
      exact List.not_mem_nil _
    · intro h
      exact absurd h hbody
  · have hcalls : (CalcHandler K NewRecorder r).calcCalls = [e] := by rw [heq]
    have hcode : (CalcHandler K NewRecorder r).w.Code = 422 := by
      rw [heq, httpError_NewRecorder]
      exact errorReply_snd err
    have hbody : (CalcHandler K NewRecorder r).w.Body
        = "\x7b\"error\":\"" ++ (errorReply err).1 ++ "\"\x7d" ++ "\n" := by
      rw [heq, httpError_NewRecorder]
    rw [hcalls, hcode, hbody]
    refine ⟨?_, ?_, ?_, ?_⟩
    · exact ⟨fun _ => ⟨hm, body, e, hb, hu, he⟩, fun _ => List.cons_ne_nil _ _⟩
    · intro body2 e2 _ hb2 hu2 _
      rw [hb] at hb2
      cases hb2
      rw [hu] at hu2
      cases hu2
      rfl
    · intro hmem
      rw [List.mem_singleton] at hmem
      exact he hmem.symm
    · intro h
      have herr := errorReply_empty_input err h
      subst herr
      exact ⟨rfl, by decide, body, e, hb, hu, he, hc⟩
  · have hcalls : (CalcHandler K NewRecorder r).calcCalls = [e] := by rw [heq]
    have hbody : (CalcHandler K NewRecorder r).w.Body
        ≠ "\x7b\"error\":" ++ "\"Empty input\"\x7d\n" := by
      rw [heq, success_NewRecorder]
      exact marshal_ne_error (K.Sprintv v) "\"Empty input\"\x7d\n"
    rw [hcalls]
    refine ⟨?_, ?_, ?_, ?_⟩
    · exact ⟨fun _ => ⟨hm, body, e, hb, hu, he⟩, fun _ => List.cons_ne_nil _ _⟩
    · intro body2 e2 _ hb2 hu2 _
      rw [hb] at hb2
      cases hb2
      rw [hu] at hu2
      cases hu2
      rfl
    · intro hmem
      rw [List.mem_singleton] at hmem
      exact he hmem.symm
    · intro h
      exact absurd h hbody

theorem C9_calc_called_iff_witness :
    (CalcHandler exampleCollaborators NewRecorder
        (NewRequest "POST" "/api/v1/calculate" "\x7b\"expression\":\"  \"\x7d")).w.Body
        = "\x7b\"error\":\"Empty input\"\x7d\n"
    ∧ (CalcHandler exampleCollaborators NewRecorder
        (NewRequest "POST" "/api/v1/calculate" "\x7b\"expression\":\"  \"\x7d")).w.Code = 422
    ∧ (CalcHandler exampleCollaborators NewRecorder
        (NewRequest "POST" "/api/v1/calculate" "\x7b\"expression\":\"  \"\x7d")).calcCalls
        = ["  "] :=
  have h := C9_calc_called_iff exampleCollaborators
    (NewRequest "POST" "/api/v1/calculate" "\x7b\"expression\":\"  \"\x7d")
  ⟨by decide, (h.2.2.2 (by decide)).1,
    h.2.1 "\x7b\"expression\":\"  \"\x7d" "  " rfl rfl rfl (by decide)⟩

/-! ## The console loop -/

/-- C8: `Run` builds a new buffered reader on standard input in every turn
of its loop, so what a reader took in after the newline is dropped with it.
When the three lines `2 + 2`, `2 / 0`, `exit` come in one piece, as from a
pipe, and the input is then closed, the first read gives `2 + 2` and leaves
nothing; for every number of turns `Run` is still in its loop, it has called
`Calc` on `2 + 2` and then on the empty string only, never on `2 / 0`, and the
line `exit` is never seen. When the same lines come one per read, `Run` returns
nil at `exit` after calling `Calc` on `2 + 2` and `2 / 0`. -/
theorem C8_run_drops_buffered_lines {V : Type} (K : Collaborators V) (n : Nat) :
    ReadString ["2 + 2\n2 / 0\nexit\n".data] = ({ text := "2 + 2\n", err := none }, [])
    ∧ (Run K (n + 1) ["2 + 2\n2 / 0\nexit\n".data] { log := [], calcCalls := [] }).1
        = .looping
    ∧ (Run K (n + 1) ["2 + 2\n2 / 0\nexit\n".data] { log := [], calcCalls := [] }).2.calcCalls
        = "2 + 2" :: List.replicate n ""
    ∧ "2 / 0" ∉
        (Run K (n + 1) ["2 + 2\n2 / 0\nexit\n".data] { log := [], calcCalls := [] }).2.calcCalls
    ∧ (Run K (n + 3) ["2 + 2\n".data, "2 / 0\n".data, "exit\n".data]
        { log := [], calcCalls := [] }).1 = .returned none
    ∧ (Run K (n + 3) ["2 + 2\n".data, "2 / 0\n".data, "exit\n".data]
        { log := [], calcCalls := [] }).2.calcCalls = ["2 + 2", "2 / 0"] := by
  have hread : ReadString ["2 + 2\n2 / 0\nexit\n".data]
      = ({ text := "2 + 2\n", err := none }, []) := by decide
  obtain ⟨t1, h1, h2⟩ := Run_turn K n ["2 + 2\n2 / 0\nexit\n".data]
    { log := [], calcCalls := [] } (by decide)
  have hcalls : (Run K (n + 1) ["2 + 2\n2 / 0\nexit\n".data]
      { log := [], calcCalls := [] }).2.calcCalls = "2 + 2" :: List.replicate n "" := by
    rw [h2, hread, (Run_closed K n t1).2, h1, hread]
    rfl
  obtain ⟨u1, g1, g2⟩ := Run_turn K (n + 2) ["2 + 2\n".data, "2 / 0\n".data, "exit\n".data]
    { log := [], calcCalls := [] } (by decide)
  have hr1 : ReadString ["2 + 2\n".data, "2 / 0\n".data, "exit\n".data]
      = ({ text := "2 + 2\n", err := none }, ["2 / 0\n".data, "exit\n".data]) := by decide
  obtain ⟨u2, g3, g4⟩ := Run_turn K (n + 1) ["2 / 0\n".data, "exit\n".data] u1 (by decide)
  have hr2 : ReadString ["2 / 0\n".data, "exit\n".data]
      = ({ text := "2 / 0\n", err := none }, ["exit\n".data]) := by decide
  obtain ⟨u3, g5, g6⟩ := Run_exit K n ["exit\n".data] u2 (by decide)
  have hline : Run K (n + 3) ["2 + 2\n".data, "2 / 0\n".data, "exit\n".data]
      { log := [], calcCalls := [] } = (.returned none, u3) := by
    rw [g2, hr1, g4, hr2, g6]
  have hu3 : u3.calcCalls = ["2 + 2", "2 / 0"] := by
    rw [g5, g3, g1, hr1, hr2]
    rfl
  refine ⟨hread, ?_, hcalls, ?_, ?_, ?_⟩
  · rw [h2, hread]
    exact (Run_closed K n t1).1
  · rw [hcalls]
    intro hmem
    rcases List.mem_cons.1 hmem with h | h
    · exact absurd h (by decide)
    · exact absurd (List.eq_of_mem_replicate h) (by decide)
  · rw [hline]
  · rw [hline]
    exact hu3

end CalcGo
